import Mathlib

/-!
Verification of the agentsystems-sdk configuration loader
(`agentsystems_sdk/config.py`) and the platform-up agent subsystem
(`agentsystems_sdk/commands/up.py`): registry authentication, agent
reconciliation and the container health gate.

The Python code is shallowly embedded.  YAML documents are modelled by an
inductive `Yaml` type (floating-point scalars and non-string mapping keys
are outside the model; YAML mappings are represented as association lists
with the unique keys of a Python dict).  Python's exception-raising
control flow is modelled with `Except`.  External effects (the container
runtime, subprocesses) are modelled by an oracle structure `Up.World`,
and the observable actions of `setup_agents_from_config` are collected
into an event trace.
-/

/-! ## Character-level string helpers

Python string primitives used by the source, re-implemented by structural
recursion on the character list so that they compute by `rfl`/`decide`. -/

/-- Python `s.startswith(p)`. -/
def sStartsWith (s pfx : String) : Bool := pfx.data.isPrefixOf s.data

/-- ASCII upper-casing of one character (`str.upper` on the alphabet used
by registry ids). -/
def upperChar (c : Char) : Char :=
  if 97 ≤ c.toNat ∧ c.toNat ≤ 122 then Char.ofNat (c.toNat - 32) else c

/-- Python `s.upper()` (ASCII). -/
def sToUpper (s : String) : String := String.mk (s.data.map upperChar)

/-- Python `s.rstrip("*")`: remove every trailing `*`. -/
def rstripStar (s : String) : String :=
  String.mk ((s.data.reverse.dropWhile (fun c => c = Char.ofNat 42)).reverse)

/-- Python `s.strip()`: remove leading and trailing whitespace. -/
def sStrip (s : String) : String :=
  String.mk ((s.data.dropWhile Char.isWhitespace).reverse.dropWhile Char.isWhitespace).reverse

/-- Helper for `pySplit`: split a character list on whitespace runs,
carrying the (reversed) current word. -/
def splitWsAux : List Char → List Char → List String
  | [], acc => if acc.isEmpty then [] else [String.mk acc.reverse]
  | c :: rest, acc =>
    if c.isWhitespace then
      if acc.isEmpty then splitWsAux rest []
      else String.mk acc.reverse :: splitWsAux rest []
    else splitWsAux rest (c :: acc)

/-- Python `s.split()` with no argument: split on whitespace runs,
discarding empty fields. -/
def pySplit (s : String) : List String := splitWsAux s.data []

/-- Helper for `sReplace`: fuel-indexed so that the recursion is
structural (the fuel is the length of the remaining character list). -/
def replaceAux (pat repl : List Char) : Nat → List Char → List Char
  | _, [] => []
  | 0, l => l
  | fuel + 1, c :: rest =>
    if pat.isPrefixOf (c :: rest) ∧ pat ≠ [] then
      repl ++ replaceAux pat repl fuel (rest.drop (pat.length - 1))
    else
      c :: replaceAux pat repl fuel rest

/-- Python `s.replace(pat, repl)` for a non-empty pattern (the source
only substitutes the literal placeholder `\x7bpat\x7d`): replace each
non-overlapping occurrence, scanning left to right. -/
def sReplace (s pat repl : String) : String :=
  String.mk (replaceAux pat.data repl.data s.data.length s.data)

/-! ## YAML documents -/

/-- A parsed YAML document as handed to `Config.__init__` by
`yaml.safe_load`.  Mappings carry the unique string keys of the resulting
Python dict, in insertion order. -/
inductive Yaml where
  | null
  | bool (b : Bool)
  | int (n : Int)
  | str (s : String)
  | list (xs : List Yaml)
  | map (kvs : List (String × Yaml))

/-- Python truthiness of a YAML value (`None`, `False`, `0`, `""`, `[]`
and `{}` are falsy). -/
def Yaml.falsy : Yaml → Bool
  | .null => true
  | .bool b => !b
  | .int n => n == 0
  | .str s => s == ""
  | .list xs => xs.isEmpty
  | .map kvs => kvs.isEmpty

/-- `d.get(k)` on the dict represented by an association list. -/
def getKey (kvs : List (String × Yaml)) (k : String) : Option Yaml :=
  (kvs.find? (fun kv => kv.1 == k)).map (fun kv => kv.2)

/-- Whether a YAML value is a mapping. -/
def Yaml.isMap : Yaml → Bool
  | .map _ => true
  | _ => false

/-- Python iteration `for a in v`: lists yield their elements, strings
their characters, dicts their keys; other values are not iterable. -/
def Yaml.pyIter : Yaml → Option (List Yaml)
  | .list xs => some xs
  | .str s => some (s.data.map (fun c => Yaml.str (String.mk [c])))
  | .map kvs => some (kvs.map (fun kv => Yaml.str kv.1))
  | _ => none

/-- Python `v == 1` for a YAML scalar (`True == 1` holds in Python). -/
def pyEqOne : Yaml → Bool
  | .int n => n == 1
  | .bool b => b
  | _ => false

/-! ## Config Store (`agentsystems_sdk/config.py`) -/

namespace Cfg

/-- The distinct exception sites of `Config.__init__` /
`Registry.__init__` / `Agent.__init__` (Python raises
`FileNotFoundError`, `yaml.YAMLError`, `ValueError`, `KeyError`,
`TypeError` or `AttributeError`; only which site raised is tracked). -/
inductive LoadErr where
  | fileMissing
  | yamlInvalid
  | topNotMapping
  | badVersion
  | registriesNotMapping
  | registryEntryNotMapping
  | registryMissingUrl
  | agentsNotIterable
  | agentEntryNotMapping
  | agentMissingKey
  | noRegistries
  | noAgents
  deriving DecidableEq

/-- `Registry` of config.py: name (the mapping key), `url` (required),
`enabled` (default `True`), `auth` (default `{}`). -/
structure Registry where
  name : String
  url : Yaml
  enabled : Yaml
  auth : Yaml

/-- `Registry.__init__(name, data)`: `data["url"]` raises on a missing
key; attribute access on a non-dict raises. -/
def Registry.make (name : String) (data : Yaml) : Except LoadErr Registry :=
  match data with
  | .map kvs =>
    match getKey kvs "url" with
    | none => .error .registryMissingUrl
    | some u =>
      .ok { name := name
            url := u
            enabled := (getKey kvs "enabled").getD (.bool true)
            auth := (getKey kvs "auth").getD (.map []) }
  | _ => .error .registryEntryNotMapping

/-- `Agent` of config.py: `name` and `image` required, `registry`,
`labels`, `overrides` optional. -/
structure Agent where
  name : Yaml
  image : Yaml
  registry : Option Yaml
  labels : Yaml
  overrides : Yaml

/-- `Agent.__init__(data)`: missing `name` or `image` raises
(`ValueError` in the source); subscripting a non-dict raises. -/
def Agent.make (data : Yaml) : Except LoadErr Agent :=
  match data with
  | .map kvs =>
    match getKey kvs "name" with
    | none => .error .agentMissingKey
    | some n =>
      match getKey kvs "image" with
      | none => .error .agentMissingKey
      | some im =>
        .ok { name := n
              image := im
              registry := getKey kvs "registry"
              labels := (getKey kvs "labels").getD (.map [])
              overrides := (getKey kvs "overrides").getD (.map []) }
  | _ => .error .agentEntryNotMapping

/-- The dict comprehension building `self.registries`, in mapping order;
the first raising constructor aborts the load. -/
def parseRegList : List (String × Yaml) → Except LoadErr (List Registry)
  | [] => .ok []
  | (n, d) :: rest =>
    match Registry.make n d with
    | .error e => .error e
    | .ok r =>
      match parseRegList rest with
      | .error e => .error e
      | .ok rs => .ok (r :: rs)

/-- `raw.get("registries", {}).items()`: only a mapping has `.items()`. -/
def parseRegistries (v : Yaml) : Except LoadErr (List Registry) :=
  match v with
  | .map entries => parseRegList entries
  | _ => .error .registriesNotMapping

/-- The list comprehension building `self.agents`. -/
def parseAgentList : List Yaml → Except LoadErr (List Agent)
  | [] => .ok []
  | a :: rest =>
    match Agent.make a with
    | .error e => .error e
    | .ok ag =>
      match parseAgentList rest with
      | .error e => .error e
      | .ok ags => .ok (ag :: ags)

/-- `for a in raw.get("agents", [])`, with Python iteration semantics. -/
def parseAgents (v : Yaml) : Except LoadErr (List Agent) :=
  match v.pyIter with
  | some elems => parseAgentList elems
  | none => .error .agentsNotIterable

/-- The loaded `Config` object. -/
structure Config where
  version : Yaml
  registries : List Registry
  agents : List Agent

/-- Body of `Config.__init__` once `raw` is known to be a mapping:
version check, registry and agent construction, then the two
non-emptiness validations, in source order. -/
def loadMap (kvs : List (String × Yaml)) : Except LoadErr Config :=
  let version := (getKey kvs "config_version").getD (.int 1)
  if pyEqOne version then
    match parseRegistries ((getKey kvs "registries").getD (.map [])) with
    | .error e => .error e
    | .ok regs =>
      match parseAgents ((getKey kvs "agents").getD (.list [])) with
      | .error e => .error e
      | .ok ags =>
        if regs.isEmpty then .error .noRegistries
        else if ags.isEmpty then .error .noAgents
        else .ok { version := version, registries := regs, agents := ags }
  else .error .badVersion

/-- `raw = yaml.safe_load(fh) or {}` followed by the body: a falsy
document is coerced to the empty mapping; a truthy non-mapping document
raises on attribute access. -/
def loadDoc (doc : Yaml) : Except LoadErr Config :=
  let raw := if doc.falsy then Yaml.map [] else doc
  match raw with
  | .map kvs => loadMap kvs
  | _ => .error .topNotMapping

/-- `Config(path)`.  The input models the file system and the YAML
parser: `none` is a missing file, `some (.error ())` a file whose text
is not valid YAML, `some (.ok doc)` a file parsing to `doc`.  Loading is
a pure function of that input: it modifies nothing outside the returned
value. -/
def loadConfig : Option (Except Unit Yaml) → Except LoadErr Config
  | none => .error .fileMissing
  | some (.error _) => .error .yamlInvalid
  | some (.ok doc) => loadDoc doc

/-- `Config.enabled_registries()`: registries whose `enabled` attribute
is truthy. -/
def Config.enabled_registries (c : Config) : List Registry :=
  c.registries.filter (fun r => !r.enabled.falsy)

/-- `Config.images()`: the image reference of each agent. -/
def Config.images (c : Config) : List Yaml :=
  c.agents.map (fun a => a.image)

/-- `isErr r` iff the Python constructor raised. -/
def isErr : Except LoadErr Config → Bool
  | .error _ => true
  | .ok _ => false

/-! ### The load-failure conditions, stated from the spec

These predicates follow the wording of the spec ("Fails when: file
missing; YAML is structurally invalid; `config_version` is present and
not equal to `1`; `registries` is empty or absent; `agents` is empty or
absent; any agent entry lacks `name` or `image`.") together with the
declared schema (top level a mapping, `registries` a mapping of
mappings, `agents` a list of mappings).  They are compared with the
embedded loader. -/

/-- The `registries` value of the document (defaulting to `{}`). -/
def regsVal (kvs : List (String × Yaml)) : Yaml :=
  (getKey kvs "registries").getD (.map [])

/-- The `agents` value of the document (defaulting to `[]`). -/
def agentsVal (kvs : List (String × Yaml)) : Yaml :=
  (getKey kvs "agents").getD (.list [])

/-- Schema shape of the `registries` section: a mapping whose entries
are mappings. -/
def regsShape (v : Yaml) : Bool :=
  match v with
  | .map entries => entries.all (fun nd => nd.2.isMap)
  | _ => false

/-- Schema shape of the `agents` section: a list of mappings. -/
def agentsShape (v : Yaml) : Bool :=
  match v with
  | .list xs => xs.all Yaml.isMap
  | _ => false

/-- The `registries` mapping is empty (or absent, via the default). -/
def regsValEmpty (v : Yaml) : Bool :=
  match v with
  | .map entries => entries.isEmpty
  | _ => false

/-- The `agents` list is empty (or absent, via the default). -/
def agentsValEmpty (v : Yaml) : Bool :=
  match v with
  | .list xs => xs.isEmpty
  | _ => false

/-- Some registry entry is a mapping lacking the `url` key. -/
def regsValMissingUrl (v : Yaml) : Bool :=
  match v with
  | .map entries =>
    entries.any (fun nd =>
      match nd.2 with
      | .map rk => (getKey rk "url").isNone
      | _ => false)
  | _ => false

/-- Some agent entry is a mapping lacking `name` or `image`. -/
def agentsValMissingKey (v : Yaml) : Bool :=
  match v with
  | .list xs =>
    xs.any (fun a =>
      match a with
      | .map ak => (getKey ak "name").isNone || (getKey ak "image").isNone
      | _ => false)
  | _ => false

/-- The document (after the falsy-to-`{}` coercion) violates the
declared schema shape. -/
def docBadShape (doc : Yaml) : Bool :=
  match (if doc.falsy then Yaml.map [] else doc) with
  | .map kvs => !(regsShape (regsVal kvs) && agentsShape (agentsVal kvs))
  | _ => true

/-- `config_version` is present and not (Python-)equal to `1`. -/
def versionNotOne (doc : Yaml) : Bool :=
  match (if doc.falsy then Yaml.map [] else doc) with
  | .map kvs => !pyEqOne ((getKey kvs "config_version").getD (.int 1))
  | _ => false

/-- `registries` is empty or absent. -/
def registriesEmptyOrAbsent (doc : Yaml) : Bool :=
  match (if doc.falsy then Yaml.map [] else doc) with
  | .map kvs => regsValEmpty (regsVal kvs)
  | _ => false

/-- `agents` is empty or absent. -/
def agentsEmptyOrAbsent (doc : Yaml) : Bool :=
  match (if doc.falsy then Yaml.map [] else doc) with
  | .map kvs => agentsValEmpty (agentsVal kvs)
  | _ => false

/-- Some agent entry lacks `name` or `image`. -/
def anyAgentMissingKey (doc : Yaml) : Bool :=
  match (if doc.falsy then Yaml.map [] else doc) with
  | .map kvs => agentsValMissingKey (agentsVal kvs)
  | _ => false

/-- Some registry entry lacks `url` (the failure condition the spec's
list omits). -/
def anyRegistryMissingUrl (doc : Yaml) : Bool :=
  match (if doc.falsy then Yaml.map [] else doc) with
  | .map kvs => regsValMissingUrl (regsVal kvs)
  | _ => false

/-- The claim's failure conditions, exactly as listed in the spec. -/
def specErrorOriginal (input : Option (Except Unit Yaml)) : Bool :=
  match input with
  | none => true
  | some (.error _) => true
  | some (.ok doc) =>
    docBadShape doc || versionNotOne doc || registriesEmptyOrAbsent doc ||
      agentsEmptyOrAbsent doc || anyAgentMissingKey doc

/-- The failure conditions amended with the one case the code adds:
a registry entry lacking `url` also raises. -/
def specErrorAmended (input : Option (Except Unit Yaml)) : Bool :=
  specErrorOriginal input ||
    (match input with
     | some (.ok doc) => anyRegistryMissingUrl doc
     | _ => false)

end Cfg

/-! ## Health Gate (`wait_for_agent_healthy` in `commands/up.py`) -/

/-- One runtime observation of a container, as produced by
`client.containers.get(name)` inside the polling loop:
the container is gone (`docker.errors.NotFound`), its state carries no
`Health` key, or its `State.Health.Status` string. -/
inductive Observation where
  | absent
  | noHealth
  | health (status : String)

/-- Number of loop iterations the deadline admits.  The loop body is the
only place time advances in the model (a 2-second sleep after each
non-terminal poll), so poll `i` happens at time `2 * i` and runs iff
`2 * i < timeout`: there are `(timeout + 1) / 2` such polls. -/
def pollsAllowed (timeout : Nat) : Nat := (timeout + 1) / 2

/-- The polling loop of `wait_for_agent_healthy`, recursing on the
remaining admissible polls; `i` is the index of the next poll.  Returns
the boolean result of the Python function together with the number of
polls performed (the instrumentation needed to state immediacy). -/
def waitAux (obs : Nat → Observation) : Nat → Nat → Bool × Nat
  | 0, i => (false, i)
  | fuel + 1, i =>
    match obs i with
    | .absent => (false, i + 1)
    | .noHealth => (true, i + 1)
    | .health s =>
      if s = "healthy" then (true, i + 1)
      else if s = "unhealthy" then (false, i + 1)
      else waitAux obs fuel (i + 1)

/-- `wait_for_agent_healthy(client, name, timeout)`: the observations of
the named container are abstracted into the sequence `obs`. -/
def wait_for_agent_healthy (obs : Nat → Observation) (timeout : Nat) : Bool × Nat :=
  waitAux obs (pollsAllowed timeout) 0

/-- The four outcomes named by the spec contract
`await_healthy -> Healthy | Unhealthy | TimedOut | NotFound`. -/
inductive HealthOutcome where
  | healthy
  | unhealthy
  | timedOut
  | notFound
  deriving DecidableEq

/-- Modelled from the spec: which outcome, if any, an observation
terminates the wait with (no health-check metadata counts as healthy). -/
def isTerminal : Observation → Option HealthOutcome
  | .absent => some .notFound
  | .noHealth => some .healthy
  | .health s =>
    if s = "healthy" then some .healthy
    else if s = "unhealthy" then some .unhealthy
    else none

/-- Modelled from the spec: the outcome of the wait is the first
terminal observation within the deadline, or `timedOut`. -/
def specOutcomeAux (obs : Nat → Observation) : Nat → Nat → HealthOutcome
  | 0, _ => .timedOut
  | fuel + 1, i =>
    match isTerminal (obs i) with
    | some o => o
    | none => specOutcomeAux obs fuel (i + 1)

/-- Modelled from the spec: the `await_healthy` outcome of a container
with observation sequence `obs` under the given timeout. -/
def specOutcome (obs : Nat → Observation) (timeout : Nat) : HealthOutcome :=
  specOutcomeAux obs (pollsAllowed timeout) 0

/-! ## Agent setup (`setup_agents_from_config` in `commands/up.py`) -/

/-- `--agents` startup mode. -/
inductive AgentStartMode where
  | none
  | create
  | all
  deriving DecidableEq

namespace Up

/-- A registry as consumed by `setup_agents_from_config`: the mapping id
together with the attributes the login loop reads (`url`, `username`,
`type`, `password_command`) and the `enabled` flag filtered on.
Modelled from the spec: config.py's `Registry` does not define
`username`, `type` or `password_command`, which up.py reads; the spec
describes them as the connection URL and authentication descriptor with
an optional password-derivation command template containing a
placeholder (`rtype` stands for the source attribute `type`, a reserved
word here). -/
structure Registry where
  id : String
  url : String
  username : String
  rtype : String
  password_command : String
  enabled : Bool

/-- An agent as consumed by `setup_agents_from_config`.
Modelled from the spec: config.py's `Agent` does not define `disabled`,
`environment`, `env_from` or `port`, which up.py reads; the spec gives
them as the disabled flag (default false), static environment mapping,
environment-forwarding prefix patterns and declared listen port.
`environment` carries the unique keys of a Python dict. -/
structure Agent where
  name : String
  image : String
  disabled : Bool
  environment : List (String × String)
  env_from : List String
  port : Nat

/-- The configuration view used by up.py. -/
structure Config where
  registries : List Registry
  agents : List Agent

/-- `Config.enabled_registries()`: registries flagged as enabled (the
derived view of config.py, on the reconciler's registry records). -/
def Config.enabled_registries (c : Config) : List Registry :=
  c.registries.filter (fun r => r.enabled)

/-- Oracle for every external effect of the setup routine: image pulls,
container existence, container creation, subprocess runs (returning the
stripped stdout on success), login results and per-container health
observations. -/
structure World where
  pullOk : String → Bool
  containerExists : String → Bool
  createOk : String → Bool
  runCmd : List String → Option String
  loginOk : String → String → Bool
  healthObs : String → Nat → Observation

/-- Observable actions of `setup_agents_from_config`, in program order. -/
inductive Event where
  | credStoreCreated
  | credStoreRemoved
  | loginSkipped (regId : String)
  | pwDerivationFailed (regId : String)
  | loginAttempt (regId : String) (ok : Bool)
  | skippedDisabled (agentName : String)
  | pull (image : String) (ok : Bool)
  | alreadyExists (containerName : String)
  | healthCheck (containerName : String) (healthy : Bool)
  | create (agentName containerName : String)
      (envVars labels : List (String × String)) (ok : Bool)
  | start (containerName : String)
  deriving DecidableEq

/-- `f"\x7breg_id.upper()\x7d_PAT"`: the secret environment variable
named after a registry id. -/
def secretEnvName (regId : String) : String := sToUpper regId ++ "_PAT"

/-- Lookup in an environment/dict modelled as an association list
(first binding wins, as in a Python dict with unique keys). -/
def slookup (d : List (String × String)) (k : String) : Option String :=
  (d.find? (fun kv => kv.1 == k)).map (fun kv => kv.2)

/-- `os.getenv(k, d)`. -/
def getEnvD (env : List (String × String)) (k d : String) : String :=
  (slookup env k).getD d

/-- Python `d[k] = v` on a dict kept as an association list: update the
existing binding in place, else append. -/
def dictSet : List (String × String) → String → String → List (String × String)
  | [], k, v => [(k, v)]
  | (k0, v0) :: rest, k, v =>
    if k0 == k then (k, v) :: rest else (k0, v0) :: dictSet rest k v

/-- The inner loop of the `env_from` forwarding: for one prefix, copy
every process-environment variable whose name starts with it. -/
def forwardOne (pfx : String) (procEnv d : List (String × String)) :
    List (String × String) :=
  procEnv.foldl (fun d kv => if sStartsWith kv.1 pfx then dictSet d kv.1 kv.2 else d) d

/-- The `env_from` pattern loop: each pattern is stripped of trailing
`*` and forwarded in order (the `if agent.env_from:` guard equals
folding the empty list). -/
def applyEnvFrom (patterns : List String) (procEnv d : List (String × String)) :
    List (String × String) :=
  patterns.foldl (fun d p => forwardOne (rstripStar p) procEnv d) d

/-- The merged container environment built before `containers.create`:
the agent's static map, then the three tracing-platform variables, then
the forwarded prefix matches. -/
def buildEnvVars (a : Agent) (procEnv : List (String × String)) :
    List (String × String) :=
  let base := a.environment
  let withTracing :=
    dictSet
      (dictSet
        (dictSet base "LANGFUSE_HOST" (getEnvD procEnv "LANGFUSE_HOST" "http://langfuse-web:3000"))
        "LANGFUSE_PUBLIC_KEY" (getEnvD procEnv "LANGFUSE_PUBLIC_KEY" ""))
      "LANGFUSE_SECRET_KEY" (getEnvD procEnv "LANGFUSE_SECRET_KEY" "")
  applyEnvFrom a.env_from procEnv withTracing

/-- The fixed labels attached to a created agent container. -/
def agentLabels (a : Agent) : List (String × String) :=
  [("agent.enabled", "true"), ("agent.port", toString a.port), ("agent.name", a.name)]

/-- `f"agentsystems-\x7bagent.name\x7d-1"`: the deterministic container
name. -/
def cname (a : Agent) : String := "agentsystems-" ++ a.name ++ "-1"

/-- The body of the registry loop for one enabled registry: skip when
the secret is absent or empty (`if not pat:`); for `ghcr` the password
command is `echo pat` (always succeeding with `pat` as its stripped
stdout), otherwise the configured command with the secret substituted
for the placeholder; a failed derivation skips the registry, otherwise
the login is attempted with the derived password. -/
def registryEvents (world : World) (env : List (String × String)) (r : Registry) :
    List Event :=
  match slookup env (secretEnvName r.id) with
  | Option.none => [.loginSkipped r.id]
  | some pat =>
    if pat = "" then [.loginSkipped r.id]
    else
      let pw? :=
        if r.rtype = "ghcr" then some (sStrip pat)
        else world.runCmd (pySplit (sReplace r.password_command "{pat}" pat))
      match pw? with
      | Option.none => [.pwDerivationFailed r.id]
      | some pw => [.loginAttempt r.id (world.loginOk r.id pw)]

/-- The body of the agent loop for one agent: skip if disabled; pull
(a failure moves to the next agent); if the deterministic container name
exists, report it and run the health gate (the 120-second default)
without creating; otherwise build the environment and labels and create
the container, and in mode `all` also start it and run the health
gate. -/
def agentEvents (world : World) (env : List (String × String))
    (mode : AgentStartMode) (a : Agent) : List Event :=
  if a.disabled then [.skippedDisabled a.name]
  else if world.pullOk a.image = false then [.pull a.image false]
  else if world.containerExists (cname a) then
    [.pull a.image true, .alreadyExists (cname a),
     .healthCheck (cname a) (wait_for_agent_healthy (world.healthObs (cname a)) 120).1]
  else
    let ev := buildEnvVars a env
    let lbs := agentLabels a
    if world.createOk a.name = false then
      [.pull a.image true, .create a.name (cname a) ev lbs false]
    else if mode = AgentStartMode.all then
      [.pull a.image true, .create a.name (cname a) ev lbs true, .start (cname a),
       .healthCheck (cname a) (wait_for_agent_healthy (world.healthObs (cname a)) 120).1]
    else
      [.pull a.image true, .create a.name (cname a) ev lbs true]

/-- `setup_agents_from_config(cfg, project_dir, mode)` as its trace of
observable actions: mode `none` returns before anything happens;
otherwise the isolated credential store is created, each enabled
registry is processed, each agent is processed, and the credential
store is removed. -/
def setup_agents_from_config (cfg : Config) (world : World)
    (env : List (String × String)) (mode : AgentStartMode) : List Event :=
  if mode = AgentStartMode.none then []
  else
    Event.credStoreCreated ::
      (cfg.enabled_registries.flatMap (registryEvents world env) ++
        (cfg.agents.flatMap (agentEvents world env mode) ++ [Event.credStoreRemoved]))

/-! ### The merged environment, stated from the spec -/

/-- Modelled from the spec (amended): the merged environment as an
overlay — static map, then tracing variables from the process
environment (empty-string fallback for the two keys, the fixed default
URL for the host), then every process variable matching a forwarding
prefix. -/
def mergedSpec (a : Agent) (procEnv : List (String × String)) (k : String) :
    Option String :=
  match (if a.env_from.any (fun p => sStartsWith k (rstripStar p))
         then slookup procEnv k else Option.none) with
  | some v => some v
  | Option.none =>
    if k = "LANGFUSE_HOST" then some (getEnvD procEnv k "http://langfuse-web:3000")
    else if k = "LANGFUSE_PUBLIC_KEY" ∨ k = "LANGFUSE_SECRET_KEY" then
      some (getEnvD procEnv k "")
    else slookup a.environment k

/-- The merged environment exactly as the claim words it: every tracing
variable falls back to the empty string when unset. -/
def mergedSpecClaim (a : Agent) (procEnv : List (String × String)) (k : String) :
    Option String :=
  match (if a.env_from.any (fun p => sStartsWith k (rstripStar p))
         then slookup procEnv k else Option.none) with
  | some v => some v
  | Option.none =>
    if k = "LANGFUSE_HOST" ∨ k = "LANGFUSE_PUBLIC_KEY" ∨ k = "LANGFUSE_SECRET_KEY" then
      some (getEnvD procEnv k "")
    else slookup a.environment k

end Up

/-- The boolean `wait_for_agent_healthy` reports for each spec outcome:
only `healthy` (which includes the no-healthcheck case) maps to `True`;
`unhealthy`, `timedOut` and `notFound` all collapse to `False`. -/
def outBool : HealthOutcome → Bool
  | .healthy => true
  | _ => false

/-! ## Lemmas about the health gate -/

theorem waitAux_spec_iff (obs : Nat → Observation) :
    ∀ fuel i, ((waitAux obs fuel i).1 = true) ↔ specOutcomeAux obs fuel i = .healthy := by
  intro fuel
  induction fuel with
  | zero => intro i; simp [waitAux, specOutcomeAux]
  | succ f ih =>
    intro i
    cases h : obs i with
    | absent => simp [waitAux, specOutcomeAux, h, isTerminal]
    | noHealth => simp [waitAux, specOutcomeAux, h, isTerminal]
    | health s =>
      by_cases hs : s = "healthy"
      · simp [waitAux, specOutcomeAux, h, isTerminal, hs]
      · by_cases hu : s = "unhealthy"
        · simp [waitAux, specOutcomeAux, h, isTerminal, hs, hu]
        · simpa [waitAux, specOutcomeAux, h, isTerminal, hs, hu] using ih (i + 1)

theorem waitAux_terminal (obs : Nat → Observation) (o : HealthOutcome) :
    ∀ k fuel i, k < fuel → (∀ l, l < k → isTerminal (obs (i + l)) = none) →
      isTerminal (obs (i + k)) = some o →
      waitAux obs fuel i = (outBool o, i + k + 1) := by
  intro k
  induction k with
  | zero =>
    intro fuel i hk _ hterm
    match fuel, hk with
    | f + 1, _ =>
      simp only [Nat.add_zero] at hterm
      cases h : obs i with
      | absent =>
        rw [h] at hterm; simp only [isTerminal, Option.some.injEq] at hterm
        simp [waitAux, h, ← hterm, outBool]
      | noHealth =>
        rw [h] at hterm; simp only [isTerminal, Option.some.injEq] at hterm
        simp [waitAux, h, ← hterm, outBool]
      | health s =>
        rw [h] at hterm
        by_cases hs : s = "healthy"
        · simp [isTerminal, hs] at hterm
          simp [waitAux, h, hs, ← hterm, outBool]
        · by_cases hu : s = "unhealthy"
          · simp [isTerminal, hs, hu] at hterm
            simp [waitAux, h, hs, hu, ← hterm, outBool]
          · simp [isTerminal, hs, hu] at hterm
  | succ k ih =>
    intro fuel i hk hnone hterm
    match fuel, hk with
    | f + 1, hk =>
      have h0 : isTerminal (obs i) = none := by
        have := hnone 0 (Nat.succ_pos k)
        simpa using this
      cases h : obs i with
      | absent => rw [h] at h0; simp [isTerminal] at h0
      | noHealth => rw [h] at h0; simp [isTerminal] at h0
      | health s =>
        rw [h] at h0
        by_cases hs : s = "healthy"
        · simp [isTerminal, hs] at h0
        · by_cases hu : s = "unhealthy"
          · simp [isTerminal, hs, hu] at h0
          · have step : waitAux obs (f + 1) i = waitAux obs f (i + 1) := by
              simp [waitAux, h, hs, hu]
            rw [step]
            have hres := ih f (i + 1) (Nat.lt_of_succ_lt_succ hk)
              (by
                intro l hl
                have := hnone (l + 1) (Nat.succ_lt_succ hl)
                simpa [Nat.add_assoc, Nat.add_comm 1 l] using this)
              (by
                have : i + 1 + k = i + (k + 1) := by omega
                rw [this]; exact hterm)
            rw [hres]
            congr 1
            omega

theorem pollsAllowed_pos (timeout : Nat) (h : 0 < timeout) : 0 < pollsAllowed timeout :=
  Nat.div_pos (by omega) (by norm_num)

/-- C3 (amended): `wait_for_agent_healthy` returns a single boolean that
is `true` exactly when the spec outcome is Healthy (including the
no-healthcheck case); Unhealthy, TimedOut and NotFound all return
`false` and are not mutually distinguishable from the return value.  An
`unhealthy` status observed at the first undecided poll returns
immediately (poll count `i + 1`, no further polling), and a container
that disappears at that poll likewise returns immediately rather than
waiting out the timeout. -/
theorem health_gate_outcomes (obs : Nat → Observation) (timeout i : Nat)
    (hfirst : ∀ j, j < i → isTerminal (obs j) = none)
    (hi : i < pollsAllowed timeout) :
    ((wait_for_agent_healthy obs timeout).1 = true ↔
        specOutcome obs timeout = HealthOutcome.healthy)
    ∧ (obs i = Observation.health "unhealthy" →
        wait_for_agent_healthy obs timeout = (false, i + 1))
    ∧ (obs i = Observation.absent →
        wait_for_agent_healthy obs timeout = (false, i + 1)) := by
  refine ⟨?_, ?_, ?_⟩
  · simpa [wait_for_agent_healthy, specOutcome] using
      waitAux_spec_iff obs (pollsAllowed timeout) 0
  · intro h
    have := waitAux_terminal obs HealthOutcome.unhealthy i (pollsAllowed timeout) 0 hi
      (by intro l hl; simpa using hfirst l hl)
      (by simp [h, isTerminal])
    simpa [wait_for_agent_healthy, outBool] using this
  · intro h
    have := waitAux_terminal obs HealthOutcome.notFound i (pollsAllowed timeout) 0 hi
      (by intro l hl; simpa using hfirst l hl)
      (by simp [h, isTerminal])
    simpa [wait_for_agent_healthy, outBool] using this

/-- C3 witness: the amended theorem applied to a container that is
unhealthy from the first poll, with a 10-second timeout. -/
theorem health_gate_outcomes_witness :
    ((wait_for_agent_healthy (fun _ => Observation.health "unhealthy") 10).1 = true ↔
        specOutcome (fun _ => Observation.health "unhealthy") 10 = HealthOutcome.healthy)
    ∧ ((fun _ : Nat => Observation.health "unhealthy") 0 = Observation.health "unhealthy" →
        wait_for_agent_healthy (fun _ => Observation.health "unhealthy") 10 = (false, 0 + 1))
    ∧ ((fun _ : Nat => Observation.health "unhealthy") 0 = Observation.absent →
        wait_for_agent_healthy (fun _ => Observation.health "unhealthy") 10 = (false, 0 + 1)) :=
  health_gate_outcomes (fun _ => Observation.health "unhealthy") 10 0
    (fun j hj => absurd hj (Nat.not_lt_zero j)) (by decide)

/-- C3 counterexample: the function does NOT return four mutually
distinguishable outcomes — an always-unhealthy container and a
never-resolving container have different spec outcomes (Unhealthy vs
TimedOut) yet the Python function returns the same value `False` for
both, so the return value does not determine the outcome. -/
theorem health_gate_outcomes_counterexample :
    (wait_for_agent_healthy (fun _ => Observation.health "unhealthy") 10).1 = false
    ∧ (wait_for_agent_healthy (fun _ => Observation.health "starting") 10).1 = false
    ∧ specOutcome (fun _ => Observation.health "unhealthy") 10 = HealthOutcome.unhealthy
    ∧ specOutcome (fun _ => Observation.health "starting") 10 = HealthOutcome.timedOut := by
  refine ⟨by decide, by decide, by decide, by decide⟩

/-- C7: a container whose state carries no health-check metadata makes
the gate return the healthy verdict at the very first poll — one poll,
no sleep, none of the timeout consumed. -/
theorem health_gate_no_healthcheck_immediate (obs : Nat → Observation) (timeout : Nat)
    (h0 : obs 0 = Observation.noHealth) (ht : 0 < timeout) :
    wait_for_agent_healthy obs timeout = (true, 1) := by
  have := waitAux_terminal obs HealthOutcome.healthy 0 (pollsAllowed timeout) 0
    (pollsAllowed_pos timeout ht)
    (fun l hl => absurd hl (Nat.not_lt_zero l))
    (by simp [h0, isTerminal])
  simpa [wait_for_agent_healthy, outBool] using this

/-- C7 witness: the theorem applied to a healthcheck-free container with
the default 120-second timeout. -/
theorem health_gate_no_healthcheck_immediate_witness :
    wait_for_agent_healthy (fun _ => Observation.noHealth) 120 = (true, 1) :=
  health_gate_no_healthcheck_immediate (fun _ => Observation.noHealth) 120 rfl (by decide)

/-! ## Mode `none` -/

/-- C6: with mode `none` the reconciler performs zero image pulls, zero
container creations and zero container starts, for every configuration,
environment and runtime state. -/
theorem mode_none_zero_operations (cfg : Up.Config) (world : Up.World)
    (env : List (String × String)) :
    ((Up.setup_agents_from_config cfg world env AgentStartMode.none).countP
        (fun e => match e with | Up.Event.pull _ _ => true | _ => false)) = 0
    ∧ ((Up.setup_agents_from_config cfg world env AgentStartMode.none).countP
        (fun e => match e with | Up.Event.create _ _ _ _ _ => true | _ => false)) = 0
    ∧ ((Up.setup_agents_from_config cfg world env AgentStartMode.none).countP
        (fun e => match e with | Up.Event.start _ => true | _ => false)) = 0 := by
  refine ⟨?_, ?_, ?_⟩ <;> simp [Up.setup_agents_from_config]

/-- C9: with mode `none`, `setup_agents_from_config` returns before
anything happens — the whole event trace is empty, so in particular no
isolated credential store is created, no registry login (or skip) takes
place, and no agent is pulled, created or started. -/
theorem mode_none_empty_trace (cfg : Up.Config) (world : Up.World)
    (env : List (String × String)) :
    Up.setup_agents_from_config cfg world env AgentStartMode.none = [] := by
  simp [Up.setup_agents_from_config]

/-! ## Existing containers (C1) -/

/-- C1 (amended): for an agent whose deterministic container name already
exists (and whose image pull succeeded), the per-agent reconciliation
step reports the container, runs the Health Gate on it, and performs no
create and no start — and this happens identically in every mode, i.e.
the Health Gate is invoked on the existing container in mode `create`
as well as in mode `all`. -/
theorem existing_container_not_recreated (world : Up.World)
    (env : List (String × String)) (mode : AgentStartMode) (a : Up.Agent)
    (hd : a.disabled = false) (hp : world.pullOk a.image = true)
    (he : world.containerExists (Up.cname a) = true) :
    Up.agentEvents world env mode a =
      [Up.Event.pull a.image true, Up.Event.alreadyExists (Up.cname a),
       Up.Event.healthCheck (Up.cname a)
         (wait_for_agent_healthy (world.healthObs (Up.cname a)) 120).1]
    ∧ ((Up.agentEvents world env mode a).countP
        (fun e => match e with
          | Up.Event.create _ _ _ _ _ => true
          | Up.Event.start _ => true
          | _ => false)) = 0
    ∧ Up.Event.healthCheck (Up.cname a)
        (wait_for_agent_healthy (world.healthObs (Up.cname a)) 120).1 ∈
          Up.agentEvents world env mode a := by
  have h1 : Up.agentEvents world env mode a =
      [Up.Event.pull a.image true, Up.Event.alreadyExists (Up.cname a),
       Up.Event.healthCheck (Up.cname a)
         (wait_for_agent_healthy (world.healthObs (Up.cname a)) 120).1] := by
    simp [Up.agentEvents, hd, hp, he]
  refine ⟨h1, ?_, ?_⟩
  · rw [h1]; rfl
  · rw [h1]; simp

/-- C1 witness: an existing healthy container in mode `create`. -/
theorem existing_container_not_recreated_witness :
    Up.agentEvents
        ⟨fun _ => true, fun _ => true, fun _ => true, fun _ => Option.none,
         fun _ _ => true, fun _ _ => Observation.noHealth⟩
        [] AgentStartMode.create ⟨"a1", "img", false, [], [], 8000⟩ =
      [Up.Event.pull "img" true,
       Up.Event.alreadyExists (Up.cname ⟨"a1", "img", false, [], [], 8000⟩),
       Up.Event.healthCheck (Up.cname ⟨"a1", "img", false, [], [], 8000⟩)
         (wait_for_agent_healthy (fun _ => Observation.noHealth) 120).1]
    ∧ ((Up.agentEvents
        ⟨fun _ => true, fun _ => true, fun _ => true, fun _ => Option.none,
         fun _ _ => true, fun _ _ => Observation.noHealth⟩
        [] AgentStartMode.create ⟨"a1", "img", false, [], [], 8000⟩).countP
        (fun e => match e with
          | Up.Event.create _ _ _ _ _ => true
          | Up.Event.start _ => true
          | _ => false)) = 0
    ∧ Up.Event.healthCheck (Up.cname ⟨"a1", "img", false, [], [], 8000⟩)
        (wait_for_agent_healthy (fun _ => Observation.noHealth) 120).1 ∈
          Up.agentEvents
            ⟨fun _ => true, fun _ => true, fun _ => true, fun _ => Option.none,
             fun _ _ => true, fun _ _ => Observation.noHealth⟩
            [] AgentStartMode.create ⟨"a1", "img", false, [], [], 8000⟩ :=
  existing_container_not_recreated _ [] AgentStartMode.create
    ⟨"a1", "img", false, [], [], 8000⟩ rfl rfl rfl

/-- C1 counterexample: the claim says that in mode `create` an existing
container is left untouched without a health check; but the code invokes
the Health Gate on the existing container in mode `create` too — the
trace of a `create`-mode run over one agent whose container exists
contains a health-check event. -/
theorem existing_container_not_recreated_counterexample :
    Up.Event.healthCheck (Up.cname ⟨"a1", "img", false, [], [], 8000⟩) true ∈
      Up.setup_agents_from_config
        ⟨[], [⟨"a1", "img", false, [], [], 8000⟩]⟩
        ⟨fun _ => true, fun _ => true, fun _ => true, fun _ => Option.none,
         fun _ _ => true, fun _ _ => Observation.noHealth⟩
        [] AgentStartMode.create := by
  decide

/-! ## Registry authentication (C2) -/

/-- C2: in any non-`none` run, an enabled registry whose secret
environment variable is absent contributes exactly a "skipped" event —
no login is attempted for it and nothing is raised — while the
registries before and after it and every agent are still processed; and
every enabled, non-disabled agent still gets its pull attempt. -/
theorem missing_secret_skips_registry (cfg : Up.Config) (world : Up.World)
    (env : List (String × String)) (mode : AgentStartMode)
    (hm : mode ≠ AgentStartMode.none)
    (pre : List Up.Registry) (r : Up.Registry) (post : List Up.Registry)
    (hsplit : cfg.enabled_registries = pre ++ r :: post)
    (hsec : Up.slookup env (Up.secretEnvName r.id) = Option.none) :
    Up.setup_agents_from_config cfg world env mode =
      Up.Event.credStoreCreated ::
        (pre.flatMap (Up.registryEvents world env) ++
          (Up.Event.loginSkipped r.id ::
            (post.flatMap (Up.registryEvents world env) ++
              (cfg.agents.flatMap (Up.agentEvents world env mode) ++
                [Up.Event.credStoreRemoved]))))
    ∧ ∀ a ∈ cfg.agents, a.disabled = false →
        Up.Event.pull a.image (world.pullOk a.image) ∈
          Up.setup_agents_from_config cfg world env mode := by
  have hr : Up.registryEvents world env r = [Up.Event.loginSkipped r.id] := by
    simp [Up.registryEvents, hsec]
  constructor
  · simp only [Up.setup_agents_from_config, if_neg hm, hsplit, List.flatMap_append,
      List.flatMap_cons, hr]
    simp
  · intro a ha hd
    have hmem : Up.Event.pull a.image (world.pullOk a.image) ∈
        Up.agentEvents world env mode a := by
      by_cases hp : world.pullOk a.image = true
      · rw [hp]
        by_cases hc : world.containerExists (Up.cname a) = true
        · simp [Up.agentEvents, hd, hp, hc]
        · by_cases hcr : world.createOk a.name = false
          · simp [Up.agentEvents, hd, hp, hc, hcr]
          · by_cases hmo : mode = AgentStartMode.all
            · simp [Up.agentEvents, hd, hp, hc, hcr, hmo]
            · simp [Up.agentEvents, hd, hp, hc, hcr, hmo]
      · have hp' : world.pullOk a.image = false := by
          cases hx : world.pullOk a.image
          · rfl
          · exact absurd hx hp
        rw [hp']
        simp [Up.agentEvents, hd, hp']
    simp only [Up.setup_agents_from_config, if_neg hm]
    simp only [List.mem_cons, List.mem_append, List.mem_flatMap]
    exact Or.inr (Or.inr (Or.inl ⟨a, ha, hmem⟩))

/-- C2 witness: one enabled `ghcr` registry with no secret in the
environment, one agent, mode `create`. -/
theorem missing_secret_skips_registry_witness :
    Up.setup_agents_from_config
        ⟨[⟨"r1", "ghcr.io", "u", "ghcr", "", true⟩], [⟨"a1", "img", false, [], [], 1⟩]⟩
        ⟨fun _ => true, fun _ => false, fun _ => true, fun _ => Option.none,
         fun _ _ => true, fun _ _ => Observation.noHealth⟩
        [] AgentStartMode.create =
      Up.Event.credStoreCreated ::
        (([] : List Up.Registry).flatMap
            (Up.registryEvents
              ⟨fun _ => true, fun _ => false, fun _ => true, fun _ => Option.none,
               fun _ _ => true, fun _ _ => Observation.noHealth⟩ []) ++
          (Up.Event.loginSkipped "r1" ::
            (([] : List Up.Registry).flatMap
                (Up.registryEvents
                  ⟨fun _ => true, fun _ => false, fun _ => true, fun _ => Option.none,
                   fun _ _ => true, fun _ _ => Observation.noHealth⟩ []) ++
              (([⟨"a1", "img", false, [], [], 1⟩] : List Up.Agent).flatMap
                  (Up.agentEvents
                    ⟨fun _ => true, fun _ => false, fun _ => true, fun _ => Option.none,
                     fun _ _ => true, fun _ _ => Observation.noHealth⟩
                    [] AgentStartMode.create) ++
                [Up.Event.credStoreRemoved]))))
    ∧ ∀ a ∈ ([⟨"a1", "img", false, [], [], 1⟩] : List Up.Agent), a.disabled = false →
        Up.Event.pull a.image
            ((⟨fun _ => true, fun _ => false, fun _ => true, fun _ => Option.none,
               fun _ _ => true, fun _ _ => Observation.noHealth⟩ : Up.World).pullOk a.image) ∈
          Up.setup_agents_from_config
            ⟨[⟨"r1", "ghcr.io", "u", "ghcr", "", true⟩], [⟨"a1", "img", false, [], [], 1⟩]⟩
            ⟨fun _ => true, fun _ => false, fun _ => true, fun _ => Option.none,
             fun _ _ => true, fun _ _ => Observation.noHealth⟩
            [] AgentStartMode.create :=
  missing_secret_skips_registry _ _ [] AgentStartMode.create (by decide)
    [] ⟨"r1", "ghcr.io", "u", "ghcr", "", true⟩ [] rfl rfl

/-! ## Lemmas about the merged container environment -/

theorem slookup_nil (k : String) : Up.slookup [] k = Option.none := rfl

theorem slookup_cons (kv : String × String) (d : List (String × String)) (k : String) :
    Up.slookup (kv :: d) k = if kv.1 = k then some kv.2 else Up.slookup d k := by
  by_cases h : kv.1 = k
  · simp [Up.slookup, List.find?_cons_of_pos, h]
  · rw [if_neg h]
    have : ((kv.1 == k) = false) := by simpa using h
    simp [Up.slookup, List.find?_cons_of_neg, this]

theorem slookup_eq_none (d : List (String × String)) (k : String)
    (h : k ∉ d.map Prod.fst) : Up.slookup d k = Option.none := by
  induction d with
  | nil => rfl
  | cons kv rest ih =>
    simp only [List.map_cons, List.mem_cons] at h
    push_neg at h
    rw [slookup_cons, if_neg (fun he => h.1 he.symm), ih h.2]

theorem slookup_dictSet (d : List (String × String)) (k v k' : String) :
    Up.slookup (Up.dictSet d k v) k' = if k' = k then some v else Up.slookup d k' := by
  induction d with
  | nil =>
    by_cases h : k' = k
    · rw [if_pos h, show Up.dictSet [] k v = [(k, v)] from rfl, slookup_cons,
        if_pos h.symm]
    · rw [if_neg h, show Up.dictSet [] k v = [(k, v)] from rfl, slookup_cons,
        if_neg (fun he => h he.symm)]
  | cons kv rest ih =>
    by_cases h0 : kv.1 = k
    · simp only [Up.dictSet, h0, beq_self_eq_true, if_true]
      by_cases h : k' = k
      · rw [slookup_cons, if_pos h.symm, if_pos h]
      · rw [slookup_cons, if_neg (fun he => h he.symm), if_neg h, slookup_cons,
          if_neg (fun he => h (h0 ▸ he).symm)]
    · have hb : ((kv.1 == k) = false) := by simpa using h0
      simp only [Up.dictSet, hb, Bool.false_eq_true, if_false]
      rw [slookup_cons, slookup_cons, ih]
      by_cases hk : kv.1 = k'
      · rw [if_pos hk, if_pos hk, if_neg (fun he : k' = k => h0 (hk.trans he))]
      · rw [if_neg hk, if_neg hk]

theorem forwardOne_cons (pfx : String) (kv : String × String)
    (rest d : List (String × String)) :
    Up.forwardOne pfx (kv :: rest) d =
      Up.forwardOne pfx rest
        (if sStartsWith kv.1 pfx then Up.dictSet d kv.1 kv.2 else d) := rfl

theorem slookup_forwardOne (pfx : String) (procEnv : List (String × String))
    (k : String) (hnd : (procEnv.map Prod.fst).Nodup) :
    ∀ d, Up.slookup (Up.forwardOne pfx procEnv d) k =
      match (if sStartsWith k pfx then Up.slookup procEnv k else Option.none) with
      | some v => some v
      | Option.none => Up.slookup d k := by
  induction procEnv with
  | nil =>
    intro d
    cases hsw : sStartsWith k pfx <;> simp [Up.forwardOne, slookup_nil, hsw]
  | cons kv rest ih =>
    intro d
    simp only [List.map_cons, List.nodup_cons] at hnd
    rw [forwardOne_cons, ih hnd.2]
    by_cases hk : kv.1 = k
    · have hrest : Up.slookup rest k = Option.none :=
        slookup_eq_none rest k (hk ▸ hnd.1)
      rw [slookup_cons, if_pos hk, hrest]
      cases hsw : sStartsWith k pfx
      · simp only [Bool.false_eq_true, if_false]
        rw [if_neg (by rw [hk, hsw]; exact Bool.false_ne_true)]
      · simp only [if_true]
        rw [if_pos (by rw [hk, hsw])]
        simp [slookup_dictSet, hk]
    · rw [slookup_cons, if_neg hk]
      have hset : Up.slookup (Up.dictSet d kv.1 kv.2) k = Up.slookup d k := by
        rw [slookup_dictSet, if_neg (fun he : k = kv.1 => hk he.symm)]
      have hd' : Up.slookup (if sStartsWith kv.1 pfx then Up.dictSet d kv.1 kv.2 else d) k =
          Up.slookup d k := by
        cases hsw : sStartsWith kv.1 pfx
        · simp
        · simpa [hsw] using hset
      rw [hd']

theorem applyEnvFrom_cons (p : String) (rest : List String)
    (procEnv d : List (String × String)) :
    Up.applyEnvFrom (p :: rest) procEnv d =
      Up.applyEnvFrom rest procEnv (Up.forwardOne (rstripStar p) procEnv d) := rfl

theorem slookup_applyEnvFrom (procEnv : List (String × String)) (k : String)
    (hnd : (procEnv.map Prod.fst).Nodup) :
    ∀ (patterns : List String) (d : List (String × String)),
      Up.slookup (Up.applyEnvFrom patterns procEnv d) k =
        match (if patterns.any (fun p => sStartsWith k (rstripStar p))
               then Up.slookup procEnv k else Option.none) with
        | some v => some v
        | Option.none => Up.slookup d k := by
  intro patterns
  induction patterns with
  | nil => intro d; simp [Up.applyEnvFrom]
  | cons p rest ih =>
    intro d
    rw [applyEnvFrom_cons, ih, slookup_forwardOne (rstripStar p) procEnv k hnd]
    cases hsw : sStartsWith k (rstripStar p) <;>
      cases hrest : rest.any (fun q => sStartsWith k (rstripStar q)) <;>
      cases henv : Up.slookup procEnv k <;>
      simp [List.any_cons, hsw, hrest, henv]

/-- C4 (amended): every container actually created by the reconciler
(pull succeeded, no existing container with the deterministic name)
carries exactly the merged environment — the agent's static map,
overlaid with the tracing-platform variables read from the process
environment (the host variable falling back to the fixed default URL
and the key variables to the empty string when unset), overlaid with
every live process-environment variable matching a forwarding prefix
pattern. -/
theorem created_container_environment (world : Up.World)
    (env : List (String × String)) (mode : AgentStartMode) (a : Up.Agent) (k : String)
    (hnd : (env.map Prod.fst).Nodup) (hd : a.disabled = false)
    (hp : world.pullOk a.image = true)
    (he : world.containerExists (Up.cname a) = false) :
    Up.Event.create a.name (Up.cname a) (Up.buildEnvVars a env) (Up.agentLabels a)
        (world.createOk a.name) ∈ Up.agentEvents world env mode a
    ∧ Up.slookup (Up.buildEnvVars a env) k = Up.mergedSpec a env k := by
  constructor
  · by_cases hcr : world.createOk a.name = false
    · rw [hcr]
      simp [Up.agentEvents, hd, hp, he, hcr]
    · have hcr' : world.createOk a.name = true := by
        cases hx : world.createOk a.name
        · exact absurd hx hcr
        · rfl
      rw [hcr']
      by_cases hmo : mode = AgentStartMode.all <;>
        simp [Up.agentEvents, hd, hp, he, hcr', hmo]
  · unfold Up.buildEnvVars Up.mergedSpec
    rw [slookup_applyEnvFrom env k hnd]
    have htr : Up.slookup
        (Up.dictSet
          (Up.dictSet
            (Up.dictSet a.environment "LANGFUSE_HOST"
              (Up.getEnvD env "LANGFUSE_HOST" "http://langfuse-web:3000"))
            "LANGFUSE_PUBLIC_KEY" (Up.getEnvD env "LANGFUSE_PUBLIC_KEY" ""))
          "LANGFUSE_SECRET_KEY" (Up.getEnvD env "LANGFUSE_SECRET_KEY" "")) k =
        if k = "LANGFUSE_SECRET_KEY" then some (Up.getEnvD env "LANGFUSE_SECRET_KEY" "")
        else if k = "LANGFUSE_PUBLIC_KEY" then some (Up.getEnvD env "LANGFUSE_PUBLIC_KEY" "")
        else if k = "LANGFUSE_HOST" then
          some (Up.getEnvD env "LANGFUSE_HOST" "http://langfuse-web:3000")
        else Up.slookup a.environment k := by
      simp [slookup_dictSet]
    rw [htr]
    cases hany : a.env_from.any (fun p => sStartsWith k (rstripStar p)) <;>
      cases henv : Up.slookup env k
    · by_cases h1 : k = "LANGFUSE_HOST"
      · subst h1; simp [Up.getEnvD, henv]
      · by_cases h2 : k = "LANGFUSE_PUBLIC_KEY"
        · subst h2; simp [Up.getEnvD, henv]
        · by_cases h3 : k = "LANGFUSE_SECRET_KEY"
          · subst h3; simp [Up.getEnvD, henv]
          · simp [h1, h2, h3]
    · by_cases h1 : k = "LANGFUSE_HOST"
      · subst h1; simp [Up.getEnvD, henv]
      · by_cases h2 : k = "LANGFUSE_PUBLIC_KEY"
        · subst h2; simp [Up.getEnvD, henv]
        · by_cases h3 : k = "LANGFUSE_SECRET_KEY"
          · subst h3; simp [Up.getEnvD, henv]
          · simp [h1, h2, h3]
    · by_cases h1 : k = "LANGFUSE_HOST"
      · subst h1; simp [Up.getEnvD, henv]
      · by_cases h2 : k = "LANGFUSE_PUBLIC_KEY"
        · subst h2; simp [Up.getEnvD, henv]
        · by_cases h3 : k = "LANGFUSE_SECRET_KEY"
          · subst h3; simp [Up.getEnvD, henv]
          · simp [h1, h2, h3]
    · simp [henv]

/-- C4 witness: one agent with a static variable, a process environment
carrying the tracing host, mode `create`, queried at the host key. -/
theorem created_container_environment_witness :
    Up.Event.create "a1" (Up.cname ⟨"a1", "img", false, [("K", "v")], [], 1⟩)
        (Up.buildEnvVars ⟨"a1", "img", false, [("K", "v")], [], 1⟩
          [("LANGFUSE_HOST", "hh")])
        (Up.agentLabels ⟨"a1", "img", false, [("K", "v")], [], 1⟩)
        ((⟨fun _ => true, fun _ => false, fun _ => true, fun _ => Option.none,
           fun _ _ => true, fun _ _ => Observation.noHealth⟩ : Up.World).createOk "a1") ∈
      Up.agentEvents
        ⟨fun _ => true, fun _ => false, fun _ => true, fun _ => Option.none,
         fun _ _ => true, fun _ _ => Observation.noHealth⟩
        [("LANGFUSE_HOST", "hh")] AgentStartMode.create
        ⟨"a1", "img", false, [("K", "v")], [], 1⟩
    ∧ Up.slookup
        (Up.buildEnvVars ⟨"a1", "img", false, [("K", "v")], [], 1⟩
          [("LANGFUSE_HOST", "hh")]) "LANGFUSE_HOST" =
      Up.mergedSpec ⟨"a1", "img", false, [("K", "v")], [], 1⟩
        [("LANGFUSE_HOST", "hh")] "LANGFUSE_HOST" :=
  created_container_environment
    ⟨fun _ => true, fun _ => false, fun _ => true, fun _ => Option.none,
     fun _ _ => true, fun _ _ => Observation.noHealth⟩
    [("LANGFUSE_HOST", "hh")] AgentStartMode.create
    ⟨"a1", "img", false, [("K", "v")], [], 1⟩ "LANGFUSE_HOST"
    (by decide) rfl rfl rfl

/-- C4 counterexample: the claim (and the spec sentence it quotes) says
every tracing variable falls back to the empty string when unset, but a
container created with an empty process environment gets
`LANGFUSE_HOST = "http://langfuse-web:3000"`, not the empty string, so
the merged environment differs from the claim's overlay at that key. -/
theorem created_container_environment_counterexample :
    Up.slookup (Up.buildEnvVars ⟨"a1", "img", false, [], [], 1⟩ []) "LANGFUSE_HOST" =
      some "http://langfuse-web:3000"
    ∧ Up.mergedSpecClaim ⟨"a1", "img", false, [], [], 1⟩ [] "LANGFUSE_HOST" = some ""
    ∧ (some "http://langfuse-web:3000" : Option String) ≠ some "" := by
  refine ⟨by decide, by decide, by decide⟩

/-! ## Lemmas about config loading -/

theorem registry_make_isOk (n : String) (d : Yaml) :
    (Cfg.Registry.make n d).isOk =
      (match d with
       | Yaml.map rk => (getKey rk "url").isSome
       | _ => false) := by
  cases d <;> try rfl
  case map rk =>
    cases h : getKey rk "url" <;> simp [Cfg.Registry.make, h, Except.isOk, Except.toBool]

theorem agent_make_isOk (a : Yaml) :
    (Cfg.Agent.make a).isOk =
      (match a with
       | Yaml.map ak => (getKey ak "name").isSome && (getKey ak "image").isSome
       | _ => false) := by
  cases a <;> try rfl
  case map ak =>
    cases hn : getKey ak "name" <;> cases hi : getKey ak "image" <;>
      simp [Cfg.Agent.make, hn, hi, Except.isOk, Except.toBool]

theorem parseRegList_isOk (es : List (String × Yaml)) :
    (Cfg.parseRegList es).isOk =
      es.all (fun nd => (Cfg.Registry.make nd.1 nd.2).isOk) := by
  induction es with
  | nil => rfl
  | cons nd rest ih =>
    obtain ⟨n, d⟩ := nd
    rw [List.all_cons, ← ih]
    cases hm : Cfg.Registry.make n d with
    | error e =>
      have hstep : Cfg.parseRegList ((n, d) :: rest) = .error e := by
        simp only [Cfg.parseRegList, hm]
      rw [hstep]
      simp [hm, Except.isOk, Except.toBool]
    | ok r =>
      cases hr : Cfg.parseRegList rest with
      | error e =>
        have hstep : Cfg.parseRegList ((n, d) :: rest) = .error e := by
          simp only [Cfg.parseRegList, hm, hr]
        rw [hstep]
        simp [hm, hr, Except.isOk, Except.toBool]
      | ok rs =>
        have hstep : Cfg.parseRegList ((n, d) :: rest) = .ok (r :: rs) := by
          simp only [Cfg.parseRegList, hm, hr]
        rw [hstep]
        simp [hm, hr, Except.isOk, Except.toBool]

theorem parseAgentList_isOk (xs : List Yaml) :
    (Cfg.parseAgentList xs).isOk = xs.all (fun a => (Cfg.Agent.make a).isOk) := by
  induction xs with
  | nil => rfl
  | cons a rest ih =>
    rw [List.all_cons, ← ih]
    cases hm : Cfg.Agent.make a with
    | error e =>
      have hstep : Cfg.parseAgentList (a :: rest) = .error e := by
        simp only [Cfg.parseAgentList, hm]
      rw [hstep]
      simp [hm, Except.isOk, Except.toBool]
    | ok ag =>
      cases hr : Cfg.parseAgentList rest with
      | error e =>
        have hstep : Cfg.parseAgentList (a :: rest) = .error e := by
          simp only [Cfg.parseAgentList, hm, hr]
        rw [hstep]
        simp [hm, hr, Except.isOk, Except.toBool]
      | ok ags =>
        have hstep : Cfg.parseAgentList (a :: rest) = .ok (ag :: ags) := by
          simp only [Cfg.parseAgentList, hm, hr]
        rw [hstep]
        simp [hm, hr, Except.isOk, Except.toBool]

theorem parseRegList_length (es : List (String × Yaml)) :
    ∀ l, Cfg.parseRegList es = .ok l → l.length = es.length := by
  induction es with
  | nil => intro l h; cases h; rfl
  | cons nd rest ih =>
    intro l h
    obtain ⟨n, d⟩ := nd
    cases hm : Cfg.Registry.make n d <;> rw [Cfg.parseRegList, hm] at h
    · cases h
    · cases hr : Cfg.parseRegList rest <;> rw [hr] at h
      · cases h
      · cases h
        simpa using ih _ hr

theorem parseAgentList_length (xs : List Yaml) :
    ∀ l, Cfg.parseAgentList xs = .ok l → l.length = xs.length := by
  induction xs with
  | nil => intro l h; cases h; rfl
  | cons a rest ih =>
    intro l h
    cases hm : Cfg.Agent.make a <;> rw [Cfg.parseAgentList, hm] at h
    · cases h
    · cases hr : Cfg.parseAgentList rest <;> rw [hr] at h
      · cases h
      · cases h
        simpa using ih _ hr

theorem parseRegistries_char (rv : Yaml) :
    (match Cfg.parseRegistries rv with
     | .error _ => true
     | .ok regs => regs.isEmpty) =
    (!Cfg.regsShape rv || Cfg.regsValEmpty rv || Cfg.regsValMissingUrl rv) := by
  cases rv
  case map es =>
    cases h : Cfg.parseRegList es with
    | error e =>
      have hok : (Cfg.parseRegList es).isOk = false := by rw [h]; rfl
      rw [parseRegList_isOk] at hok
      obtain ⟨⟨n, d⟩, hmem, hnd⟩ := List.all_eq_false.mp hok
      have hnd' : ¬ ((Cfg.Registry.make n d).isOk = true) := hnd
      simp only [Cfg.parseRegistries]
      rw [h]
      show true = _
      symm
      cases d
      case map rk =>
        have hurl : (getKey rk "url").isNone = true := by
          cases hu : getKey rk "url"
          · rfl
          · exfalso
            apply hnd'
            rw [registry_make_isOk]
            show (getKey rk "url").isSome = true
            rw [hu]
            rfl
        have hmu : Cfg.regsValMissingUrl (Yaml.map es) = true := by
          show (es.any _) = true
          rw [List.any_eq_true]
          exact ⟨(n, Yaml.map rk), hmem, hurl⟩
        rw [hmu]
        simp
      all_goals
        have hshape : Cfg.regsShape (Yaml.map es) = false := by
          show (es.all _) = false
          rw [List.all_eq_false]
          exact ⟨_, hmem, by simp [Yaml.isMap]⟩
      all_goals rw [hshape]
      all_goals simp
    | ok regs =>
      have hok : (Cfg.parseRegList es).isOk = true := by rw [h]; rfl
      rw [parseRegList_isOk] at hok
      have hall := List.all_eq_true.mp hok
      have hshape : Cfg.regsShape (Yaml.map es) = true := by
        show (es.all _) = true
        rw [List.all_eq_true]
        rintro ⟨n, d⟩ hx
        have hmk : (Cfg.Registry.make n d).isOk = true := hall _ hx
        rw [registry_make_isOk] at hmk
        cases d
        case map rk => rfl
        all_goals exact absurd hmk (by simp)
      have hmu : Cfg.regsValMissingUrl (Yaml.map es) = false := by
        show (es.any _) = false
        rw [List.any_eq_false]
        rintro ⟨n, d⟩ hx
        have hmk : (Cfg.Registry.make n d).isOk = true := hall _ hx
        rw [registry_make_isOk] at hmk
        cases d
        case map rk =>
          have hmk' : (getKey rk "url").isSome = true := hmk
          show ¬ ((getKey rk "url").isNone = true)
          cases hu : getKey rk "url"
          · rw [hu] at hmk'; simp at hmk'
          · simp
        all_goals simp
      have hlen := parseRegList_length es regs h
      have hemp : regs.isEmpty = es.isEmpty := by
        cases es <;> cases regs <;> simp_all
      simp only [Cfg.parseRegistries]
      rw [h]
      show regs.isEmpty = _
      rw [hshape, hmu, hemp]
      show es.isEmpty = (!true || es.isEmpty || false)
      simp
  all_goals rfl

theorem parseAgents_char (av : Yaml) :
    (match Cfg.parseAgents av with
     | .error _ => true
     | .ok ags => ags.isEmpty) =
    (!Cfg.agentsShape av || Cfg.agentsValEmpty av || Cfg.agentsValMissingKey av) := by
  cases av
  case list xs =>
    cases h : Cfg.parseAgentList xs with
    | error e =>
      have hok : (Cfg.parseAgentList xs).isOk = false := by rw [h]; rfl
      rw [parseAgentList_isOk] at hok
      obtain ⟨a, hmem, hnd⟩ := List.all_eq_false.mp hok
      have hnd' : ¬ ((Cfg.Agent.make a).isOk = true) := hnd
      show (match Cfg.parseAgentList xs with
            | .error _ => true
            | .ok ags => ags.isEmpty) = _
      rw [h]
      show true = _
      symm
      cases a
      case map ak =>
        have hmiss : ((getKey ak "name").isNone || (getKey ak "image").isNone) = true := by
          cases hn : getKey ak "name"
          · rfl
          · cases hi : getKey ak "image"
            · rfl
            · exfalso
              apply hnd'
              rw [agent_make_isOk]
              show ((getKey ak "name").isSome && (getKey ak "image").isSome) = true
              rw [hn, hi]
              rfl
        have hmk : Cfg.agentsValMissingKey (Yaml.list xs) = true := by
          show (xs.any _) = true
          rw [List.any_eq_true]
          exact ⟨Yaml.map ak, hmem, hmiss⟩
        rw [hmk]
        simp
      all_goals
        have hshape : Cfg.agentsShape (Yaml.list xs) = false := by
          show (xs.all _) = false
          rw [List.all_eq_false]
          exact ⟨_, hmem, by simp [Yaml.isMap]⟩
      all_goals rw [hshape]
      all_goals simp
    | ok ags =>
      have hok : (Cfg.parseAgentList xs).isOk = true := by rw [h]; rfl
      rw [parseAgentList_isOk] at hok
      have hall := List.all_eq_true.mp hok
      have hshape : Cfg.agentsShape (Yaml.list xs) = true := by
        show (xs.all _) = true
        rw [List.all_eq_true]
        intro a hx
        have hmk : (Cfg.Agent.make a).isOk = true := hall _ hx
        rw [agent_make_isOk] at hmk
        cases a
        case map ak => rfl
        all_goals exact absurd hmk (by simp)
      have hmkf : Cfg.agentsValMissingKey (Yaml.list xs) = false := by
        show (xs.any _) = false
        rw [List.any_eq_false]
        intro a hx
        have hmk : (Cfg.Agent.make a).isOk = true := hall _ hx
        rw [agent_make_isOk] at hmk
        cases a
        case map ak =>
          have hmk' : ((getKey ak "name").isSome && (getKey ak "image").isSome) = true := hmk
          show ¬ (((getKey ak "name").isNone || (getKey ak "image").isNone) = true)
          cases hn : getKey ak "name" <;> cases hi : getKey ak "image" <;>
            rw [hn, hi] at hmk' <;> simp_all
        all_goals simp
      have hlen := parseAgentList_length xs ags h
      have hemp : ags.isEmpty = xs.isEmpty := by
        cases xs <;> cases ags <;> simp_all
      show (match Cfg.parseAgentList xs with
            | .error _ => true
            | .ok ags => ags.isEmpty) = _
      rw [h]
      show ags.isEmpty = _
      rw [hshape, hmkf, hemp]
      show xs.isEmpty = (!true || xs.isEmpty || false)
      simp
  case str s =>
    obtain ⟨cs⟩ := s
    cases cs <;> rfl
  case map es =>
    cases es <;> rfl
  all_goals rfl

theorem loadMap_char (kvs : List (String × Yaml)) :
    Cfg.isErr (Cfg.loadMap kvs) =
      (!(Cfg.regsShape (Cfg.regsVal kvs) && Cfg.agentsShape (Cfg.agentsVal kvs)) ||
        !pyEqOne ((getKey kvs "config_version").getD (Yaml.int 1)) ||
        Cfg.regsValEmpty (Cfg.regsVal kvs) ||
        Cfg.agentsValEmpty (Cfg.agentsVal kvs) ||
        Cfg.agentsValMissingKey (Cfg.agentsVal kvs) ||
        Cfg.regsValMissingUrl (Cfg.regsVal kvs)) := by
  have hR := parseRegistries_char (Cfg.regsVal kvs)
  have hA := parseAgents_char (Cfg.agentsVal kvs)
  simp only [Cfg.regsVal, Cfg.agentsVal] at hR hA ⊢
  cases hv : pyEqOne ((getKey kvs "config_version").getD (Yaml.int 1))
  · simp [Cfg.loadMap, hv, Cfg.isErr]
  · cases hpr : Cfg.parseRegistries ((getKey kvs "registries").getD (Yaml.map [])) with
    | error e =>
      rw [hpr] at hR
      simp only [Cfg.loadMap, hv, hpr, Cfg.isErr]
      cases h1 : Cfg.regsShape ((getKey kvs "registries").getD (Yaml.map [])) <;>
        cases h3 : Cfg.regsValEmpty ((getKey kvs "registries").getD (Yaml.map [])) <;>
        cases h6 : Cfg.regsValMissingUrl ((getKey kvs "registries").getD (Yaml.map [])) <;>
        simp_all
    | ok regs =>
      cases hpa : Cfg.parseAgents ((getKey kvs "agents").getD (Yaml.list [])) with
      | error e =>
        rw [hpa] at hA
        simp only [Cfg.loadMap, hv, hpr, hpa, Cfg.isErr]
        cases h2 : Cfg.agentsShape ((getKey kvs "agents").getD (Yaml.list [])) <;>
          cases h4 : Cfg.agentsValEmpty ((getKey kvs "agents").getD (Yaml.list [])) <;>
          cases h5 : Cfg.agentsValMissingKey ((getKey kvs "agents").getD (Yaml.list [])) <;>
          simp_all
      | ok ags =>
        rw [hpr] at hR
        rw [hpa] at hA
        simp only [Cfg.loadMap, hv, hpr, hpa]
        cases hre : regs.isEmpty <;> cases hae : ags.isEmpty <;>
          cases h1 : Cfg.regsShape ((getKey kvs "registries").getD (Yaml.map [])) <;>
          cases h2 : Cfg.agentsShape ((getKey kvs "agents").getD (Yaml.list [])) <;>
          cases h3 : Cfg.regsValEmpty ((getKey kvs "registries").getD (Yaml.map [])) <;>
          cases h4 : Cfg.agentsValEmpty ((getKey kvs "agents").getD (Yaml.list [])) <;>
          cases h5 : Cfg.agentsValMissingKey ((getKey kvs "agents").getD (Yaml.list [])) <;>
          cases h6 : Cfg.regsValMissingUrl ((getKey kvs "registries").getD (Yaml.map [])) <;>
          simp_all [Cfg.isErr]

theorem loadDoc_char (doc : Yaml) :
    Cfg.isErr (Cfg.loadDoc doc) =
      (Cfg.docBadShape doc || Cfg.versionNotOne doc ||
        Cfg.registriesEmptyOrAbsent doc || Cfg.agentsEmptyOrAbsent doc ||
        Cfg.anyAgentMissingKey doc || Cfg.anyRegistryMissingUrl doc) := by
  unfold Cfg.loadDoc Cfg.docBadShape Cfg.versionNotOne Cfg.registriesEmptyOrAbsent
    Cfg.agentsEmptyOrAbsent Cfg.anyAgentMissingKey Cfg.anyRegistryMissingUrl
  cases hraw : (if doc.falsy then Yaml.map [] else doc) with
  | map kvs => exact loadMap_char kvs
  | null => rfl
  | bool b => rfl
  | int n => rfl
  | str s => rfl
  | list xs => rfl

/-- C5 (amended): config loading fails exactly when the file is missing,
the YAML text does not parse, the document (after the falsy-to-empty
coercion) violates the declared schema shape, `config_version` is
present and not equal to 1, `registries` is empty or absent, `agents`
is empty or absent, an agent entry lacks `name` or `image`, **or a
registry entry lacks `url`** (the case the spec's list omits) — and
succeeds otherwise.  Loading is modelled as a pure function of the file
input, so a successful load modifies nothing outside the returned
value. -/
theorem config_load_failure_conditions (input : Option (Except Unit Yaml)) :
    Cfg.isErr (Cfg.loadConfig input) = Cfg.specErrorAmended input := by
  match input with
  | Option.none => rfl
  | some (.error e) => rfl
  | some (.ok doc) =>
    show Cfg.isErr (Cfg.loadDoc doc) = _
    rw [loadDoc_char]
    show _ = (Cfg.specErrorOriginal (some (.ok doc)) || Cfg.anyRegistryMissingUrl doc)
    show _ = ((Cfg.docBadShape doc || Cfg.versionNotOne doc ||
      Cfg.registriesEmptyOrAbsent doc || Cfg.agentsEmptyOrAbsent doc ||
      Cfg.anyAgentMissingKey doc) || Cfg.anyRegistryMissingUrl doc)
    cases Cfg.docBadShape doc <;> cases Cfg.versionNotOne doc <;>
      cases Cfg.registriesEmptyOrAbsent doc <;> cases Cfg.agentsEmptyOrAbsent doc <;>
      cases Cfg.anyAgentMissingKey doc <;> cases Cfg.anyRegistryMissingUrl doc <;> rfl

/-- C5 counterexample: a well-formed document with one registry entry
that lacks `url` (and a valid agent).  None of the failure conditions
listed by the spec holds, yet loading raises (the `KeyError` from
`data["url"]` in `Registry.__init__`). -/
theorem config_load_failure_conditions_counterexample :
    Cfg.isErr (Cfg.loadConfig (some (.ok (Yaml.map
        [("registries", Yaml.map [("r1", Yaml.map [])]),
         ("agents", Yaml.list [Yaml.map
           [("name", Yaml.str "a"), ("image", Yaml.str "i")]])])))) = true
    ∧ Cfg.specErrorOriginal (some (.ok (Yaml.map
        [("registries", Yaml.map [("r1", Yaml.map [])]),
         ("agents", Yaml.list [Yaml.map
           [("name", Yaml.str "a"), ("image", Yaml.str "i")]])]))) = false :=
  ⟨rfl, rfl⟩

/-- C8: on any successfully loaded configuration, `images()` has exactly
the length of the agent list and its `i`-th element is the `i`-th
agent's image reference — one fully-qualified image reference per
declared agent, in declaration order. -/
theorem images_one_per_agent (input : Option (Except Unit Yaml))
    (cfg : Cfg.Config) (i : Nat) (_h : Cfg.loadConfig input = .ok cfg) :
    cfg.images.length = cfg.agents.length
    ∧ cfg.images[i]? = (cfg.agents[i]?).map Cfg.Agent.image := by
  constructor
  · simp [Cfg.Config.images]
  · simp [Cfg.Config.images]

/-- C8 witness: a two-agent configuration, checked at index 1. -/
theorem images_one_per_agent_witness :
    (Cfg.Config.images
        { version := Yaml.int 1,
          registries := [{ name := "r1", url := Yaml.str "docker.io",
                           enabled := Yaml.bool true, auth := Yaml.map [] }],
          agents := [{ name := Yaml.str "a1", image := Yaml.str "img1",
                       registry := Option.none, labels := Yaml.map [],
                       overrides := Yaml.map [] },
                     { name := Yaml.str "a2", image := Yaml.str "img2",
                       registry := Option.none, labels := Yaml.map [],
                       overrides := Yaml.map [] }]}).length =
      ([{ name := Yaml.str "a1", image := Yaml.str "img1",
          registry := Option.none, labels := Yaml.map [],
          overrides := Yaml.map [] },
        { name := Yaml.str "a2", image := Yaml.str "img2",
          registry := Option.none, labels := Yaml.map [],
          overrides := Yaml.map [] }] : List Cfg.Agent).length
    ∧ (Cfg.Config.images
        { version := Yaml.int 1,
          registries := [{ name := "r1", url := Yaml.str "docker.io",
                           enabled := Yaml.bool true, auth := Yaml.map [] }],
          agents := [{ name := Yaml.str "a1", image := Yaml.str "img1",
                       registry := Option.none, labels := Yaml.map [],
                       overrides := Yaml.map [] },
                     { name := Yaml.str "a2", image := Yaml.str "img2",
                       registry := Option.none, labels := Yaml.map [],
                       overrides := Yaml.map [] }]})[1]? =
      (([{ name := Yaml.str "a1", image := Yaml.str "img1",
           registry := Option.none, labels := Yaml.map [],
           overrides := Yaml.map [] },
         { name := Yaml.str "a2", image := Yaml.str "img2",
           registry := Option.none, labels := Yaml.map [],
           overrides := Yaml.map [] }] : List Cfg.Agent)[1]?).map Cfg.Agent.image :=
  images_one_per_agent
    (some (.ok (Yaml.map
      [("registries", Yaml.map [("r1", Yaml.map [("url", Yaml.str "docker.io")])]),
       ("agents", Yaml.list
         [Yaml.map [("name", Yaml.str "a1"), ("image", Yaml.str "img1")],
          Yaml.map [("name", Yaml.str "a2"), ("image", Yaml.str "img2")]])])))
    _ 1 rfl

/-- C10: a file whose YAML content parses to null (empty or comment-only
file) is coerced to the empty mapping and fails with the same
no-registries validation error as a config with an absent `registries`
mapping — not with a type error on the null document.  The third
conjunct states the coercion: the null document loads exactly as the
empty mapping does. -/
theorem null_document_same_as_absent_registries :
    Cfg.loadConfig (some (.ok Yaml.null)) = .error Cfg.LoadErr.noRegistries
    ∧ Cfg.loadConfig (some (.ok (Yaml.map [("agents",
        Yaml.list [Yaml.map [("name", Yaml.str "a"), ("image", Yaml.str "i")]])]))) =
      .error Cfg.LoadErr.noRegistries
    ∧ Cfg.loadConfig (some (.ok Yaml.null)) =
      Cfg.loadConfig (some (.ok (Yaml.map []))) :=
  ⟨rfl, rfl, rfl⟩
